import Mathlib

/-
Verification of the event-forge repository's specification against its
source.  The Python modules under src/ are embedded shallowly: each
relevant function becomes a Lean definition over explicit inputs standing
for the external world (HTTP responses, secret-store lookups, file
contents), and each handler additionally records the list of external
effects it performed, so that "the handler did not call X" is a provable
statement.
-/

namespace EventForge

/-- Model of the Python values that flow through the pipeline's row
records: cell contents from the sheet are strings, and the read_sheet
handler coerces the is_active field to a boolean. -/
inductive Value
  | str (s : String)
  | bool (b : Bool)
deriving DecidableEq

/-- Python truthiness for the values above: a string is truthy iff it is
non-empty, a boolean is truthy iff it is True. -/
def pyTruthy : Value → Bool
  | .str s => !(s == "")
  | .bool b => b

/-- Python str() applied to one of our values. -/
def pyStr : Value → String
  | .str s => s
  | .bool b => if b then "True" else "False"

/-- Python str.upper() on the character sequence of a string. -/
def pyUpper (s : String) : String :=
  String.mk (s.data.map Char.toUpper)

/-- A row record, as produced by dict(zip(header, row)) in google.py:
an insertion-ordered association list with unique keys (Python dict). -/
abbrev Record := List (String × Value)

/-- Dict lookup: the value bound to key k, if present. -/
def getKey : Record → String → Option Value
  | [], _ => none
  | kv :: rest, k => if kv.1 = k then some kv.2 else getKey rest k

/-- Python's `k in d` membership test. -/
def hasKey (d : Record) (k : String) : Bool :=
  (getKey d k).isSome

/-- Dict item assignment d[k] = v for a key already present: replaces the
value in place, preserving insertion order. -/
def setKey (d : Record) (k : String) (v : Value) : Record :=
  d.map (fun kv => if kv.1 = k then (k, v) else kv)

/-- One step of Python dict construction: insert-or-replace, keeping the
first-insertion position of an existing key (dict semantics). -/
def dictInsert (d : Record) (k : String) (v : Value) : Record :=
  if d.any (fun kv => kv.1 = k) then setKey d k v else d ++ [(k, v)]

/-- dict(pairs): fold the pairs through insert-or-replace, so a repeated
key keeps its first position and its last value. -/
def dictOfPairs (ps : List (String × Value)) : Record :=
  ps.foldl (fun d kv => dictInsert d kv.1 kv.2) []

/-- google.py line 107: row_data = dict(zip(header, row)).  zip truncates
to the shorter list; the cells are strings. -/
def rowRecord (header row : List String) : Record :=
  dictOfPairs ((header.zip row).map (fun p => (p.1, Value.str p.2)))

/-- google.py line 109: any(row_data.values()) — some value is truthy. -/
def hasTruthyValue (d : Record) : Bool :=
  d.any (fun kv => pyTruthy kv.2)

/-- google.py read_google_sheet, success path (lines 92-113): `values` is
the cell matrix returned by the Sheets API (communication errors, which
make the function return None, happen before this point and are out of
scope here).  An empty matrix yields []; otherwise the first row, with
each cell stripped, is the header, and each later row becomes a record,
kept only if some value is non-empty. -/
def read_google_sheet (values : List (List String)) : List Record :=
  match values with
  | [] => []
  | header :: data =>
    ((data.map (fun row => rowRecord (header.map String.trim) row)).filter
      hasTruthyValue)

/-- Model of a JSON schema at the granularity these claims exercise: the
`required` keyword, the only constraint the claims about
schema.validate_row_data turn on.  The empty `required` list is the empty
schema, which accepts every instance. -/
structure JSchema where
  required : List String
deriving DecidableEq

/-- schema.py validate_row_data (lines 10-51): jsonschema.validate
restricted to the `required` keyword — True iff every required key is
present in the record (a ValidationError is caught and reported as
False). -/
def validate_row_data (data : Record) (schema : JSchema) : Bool :=
  schema.required.all (fun k => hasKey data k)

/-- read_sheet handler lines 114-118: if "is_active" is present, replace
it by the boolean str(value).upper() == "TRUE"; otherwise leave the row
untouched. -/
def coerceIsActive (row : Record) : Record :=
  match getKey row "is_active" with
  | some v => setKey row "is_active" (.bool (pyUpper (pyStr v) == "TRUE"))
  | none => row

/-- read_sheet handler lines 111-123 (the Row Gate loop): each row is
coerced, then appended to valid_rows or invalid_rows according to
validate_row_data; the loop's net effect is this pair of in-order
filters over the coerced rows. -/
def rowGate (schema : JSchema) (rows : List Record) : List Record × List Record :=
  let cs := rows.map coerceIsActive
  (cs.filter (fun r => validate_row_data r schema),
   cs.filter (fun r => !(validate_row_data r schema)))

/-- The Python exceptions that appear in the modelled control flow. -/
inductive PyExn
  | valueError
  | fileNotFoundError
  | attributeError
  | yamlError
deriving DecidableEq

/-- What yaml.safe_load can hand back for a configuration file: Python
None (empty file) or a mapping, modelled as a flat association list since
no claim looks inside nested values. -/
inductive ConfigVal
  | null
  | dict (entries : List (String × String))
deriving DecidableEq

/-- Python truthiness of a loaded configuration value: None and the empty
dict are falsy. -/
def ConfigVal.truthy : ConfigVal → Bool
  | .null => false
  | .dict es => !es.isEmpty

/-- The world state a call to config.load_config consults: the APP_ENV
environment variable and, per environment name, whether config/<env>.yaml
exists and what yaml.safe_load produces from it. -/
structure ConfigWorld where
  app_env : Option String
  file : String → Option (Except Unit ConfigVal)

/-- config.py load_config lines 37-64, the path taken when the cache
check at line 33 failed: read APP_ENV (ValueError if unset), locate the
config file (FileNotFoundError if missing), parse it (the YAMLError is
re-raised, leaving the cache untouched), and on success store the parsed
value — whatever it is — in the cache and return it. -/
def load_config_uncached (w : ConfigWorld) (cache : Option ConfigVal) :
    Except PyExn ConfigVal × Option ConfigVal :=
  match w.app_env with
  | none => (.error .valueError, cache)
  | some e =>
    match w.file e with
    | none => (.error .fileNotFoundError, cache)
    | some (.error _) => (.error .yamlError, cache)
    | some (.ok data) => (.ok data, some data)

/-- config.py load_config (lines 13-64): `if _config_cache:` serves the
cached value only when it is truthy; otherwise the uncached path runs.
The pair returned is (result, new cache state). -/
def load_config (w : ConfigWorld) (cache : Option ConfigVal) :
    Except PyExn ConfigVal × Option ConfigVal :=
  match cache with
  | some v => if v.truthy then (.ok v, some v) else load_config_uncached w (some v)
  | none => load_config_uncached w none

/-- The module-level names bound in src/common/config.py after import:
its imports, the cache variable, and load_config.  project_root is bound
only as a local variable inside load_config (line 48), so it is not
among them. -/
def config_module_attrs : List String :=
  ["os", "yaml", "Path", "Dict", "Any", "Optional", "logger",
   "_config_cache", "load_config"]

/-- Attribute access config.<name>: AttributeError when the name is not a
module-level binding of config.py. -/
def configGetAttr (name : String) : Except PyExn Unit :=
  if config_module_attrs.contains name then .ok () else .error .attributeError

/-- The try-block body of read_sheet/handler.py lines 18-29: run
load_config, then evaluate config.project_root.  The remaining statements
(opening the schema file, configuring the logger) are unreachable because
the attribute access always fails, so they are not modelled. -/
def read_sheet_init_body (loadResult : Except PyExn ConfigVal) :
    Except PyExn ConfigVal := do
  let cfg ← loadResult
  let _ ← configGetAttr "project_root"
  pure cfg

/-- The exception classes named by the except clause at line 31 of
read_sheet/handler.py: ValueError and FileNotFoundError only. -/
def readSheetInitCatches : PyExn → Bool
  | .valueError => true
  | .fileNotFoundError => true
  | _ => false

/-- Module initialization of read_sheet/handler.py (lines 18-38): the
try body, with the except clause turning a caught exception into the
degraded state app_config = None; any other exception propagates out of
the import. -/
def read_sheet_module_init (loadResult : Except PyExn ConfigVal) :
    Except PyExn (Option ConfigVal) :=
  match read_sheet_init_body loadResult with
  | .ok cfg => .ok (some cfg)
  | .error e => if readSheetInitCatches e then .ok none else .error e

/-- The configuration fields the three handlers read from app_config. -/
structure AppConfig where
  environment : String
  google_credentials_name : String
  adobe_api_key_name : String
  assets_bucket_name : String
  outputs_bucket_name : String
deriving DecidableEq

/-- External calls a handler can make, recorded in order. -/
inductive Effect
  | fetchCredentials
  | readSheet
  | fetchSecret (name : String)
  | presignUrl (bucket key method : String)
  | submitJob
  | postWebhook
deriving DecidableEq

/-- What the body of a handler response conveys; the exact JSON strings
are kept where a claim mentions them. -/
inductive Body
  | error (msg : String)
  | warning (msg : String)
  | message (msg : String)
  | sheetResult (valid : List Record) (invalidCount : Nat) (sheetId : String)
  | jobAccepted (statusUrl bucket key : String)
deriving DecidableEq

/-- A Lambda proxy response paired with the external effects performed. -/
abbrev HandlerResult := (Nat × Body) × List Effect

/-- The read_sheet event: either data.file_id is present or the event is
malformed (KeyError path). -/
inductive ReadEvent
  | withFileId (fileId : String)
  | malformed
deriving DecidableEq

/-- Outcomes of the external calls read_sheet makes: whether credential
federation succeeded, and what read_google_sheet returned (none models
its error return None; some values is the successfully fetched cell
matrix, which the embedded read_google_sheet then shapes). -/
structure ReadSheetDeps where
  credsOk : Bool
  sheetValues : Option (List (List String))
deriving DecidableEq

/-- read_sheet handler (lines 46-140): fail fast on missing config or
schema, 400 on a malformed event, 500 when credentials or the sheet read
fail, else run the Row Gate and return the valid rows and invalid
count. -/
def read_sheet_handler (app_config : Option AppConfig)
    (schema : Option JSchema) (ev : ReadEvent) (deps : ReadSheetDeps) :
    HandlerResult :=
  match app_config with
  | none => ((500, .error "Internal server configuration error"), [])
  | some _cfg =>
    match schema with
    | none => ((500, .error "Internal server configuration error"), [])
    | some s =>
      match ev with
      | .malformed => ((400, .error "Missing file_id in event data"), [])
      | .withFileId sid =>
        if !deps.credsOk then
          ((500, .error "Failed to authenticate with Google"),
            [.fetchCredentials])
        else
          match deps.sheetValues with
          | none =>
            ((500, .error "Failed to read sheet data"),
              [.fetchCredentials, .readSheet])
          | some values =>
            let rows := read_google_sheet values
            let gated := rowGate s rows
            ((200, .sheetResult gated.1 gated.2.length sid),
              [.fetchCredentials, .readSheet])

/-- The fate of the POST in adobe.py submit_rendition_job: either a
requests-level failure with no HTTP response (network error, timeout), or
a response with a status code and, for a successful body, the optional
job-status URL parsed from _links.self.href. -/
inductive HttpPost
  | networkError
  | response (status : Nat) (jobUrl : Option String)
deriving DecidableEq

/-- The external outcomes submit_rendition_job depends on: whether a
token is (or can be) obtained, and what the POST does. -/
structure SubmitEnv where
  authOk : Bool
  post : HttpPost
deriving DecidableEq

/-- adobe.py submit_rendition_job (lines 78-138): None when no token can
be obtained; None on any RequestException — raise_for_status turns every
status >= 400, 4xx and 5xx alike, into one — and None when the 2xx body
carries no job-status URL; otherwise the URL.  Every failure cause
collapses to the same None. -/
def submit_rendition_job (env : SubmitEnv) : Option String :=
  if !env.authOk then none
  else
    match env.post with
    | .networkError => none
    | .response status jobUrl => if 400 ≤ status then none else jobUrl

/-- The generate_poster event: either data.row_data is present or the
event is malformed (KeyError path). -/
inductive PosterEvent
  | withRow (row : Record)
  | malformed
deriving DecidableEq

/-- What get_secret returned for the Adobe credentials secret: nothing,
a string that is not valid JSON with both keys, or the parsed pair. -/
inductive SecretVal
  | malformed
  | creds (client_id client_secret : String)
deriving DecidableEq

/-- The external outcomes generate_poster depends on. -/
structure PosterDeps where
  adobeSecret : Option SecretVal
  templateUrl : Option String
  outputUrl : Option String
  submit : SubmitEnv
deriving DecidableEq

/-- generate_poster handler (lines 32-153): fail fast on missing config;
400 when row_data is missing or its sku is absent or falsy; 500 when the
secret is missing or malformed, or a presigned URL cannot be made (both
presign calls are issued before the check); 502 when
submit_rendition_job returns None; 202 with the job-status URL
otherwise. -/
def generate_poster_handler (app_config : Option AppConfig)
    (ev : PosterEvent) (deps : PosterDeps) : HandlerResult :=
  match app_config with
  | none => ((500, .error "Internal server configuration error"), [])
  | some cfg =>
    match ev with
    | .malformed => ((400, .error "Invalid event data"), [])
    | .withRow row =>
      match getKey row "sku" with
      | none => ((400, .error "Invalid event data"), [])
      | some skuVal =>
        if !pyTruthy skuVal then ((400, .error "Invalid event data"), [])
        else
          let sku := pyStr skuVal
          let secretName := cfg.adobe_api_key_name
          match deps.adobeSecret with
          | none =>
            ((500, .error "Could not fetch Adobe credentials"),
              [.fetchSecret secretName])
          | some .malformed =>
            ((500, .error "Malformed Adobe credentials secret"),
              [.fetchSecret secretName])
          | some (.creds _cid _csec) =>
            let outKey := "generated/" ++ sku ++ "_poster.pdf"
            let presigns : List Effect :=
              [.presignUrl cfg.assets_bucket_name
                  "templates/default_template.indt" "GET",
               .presignUrl cfg.outputs_bucket_name outKey "PUT"]
            match deps.templateUrl, deps.outputUrl with
            | none, _ =>
              ((500, .error "Failed to generate S3 URLs"),
                .fetchSecret secretName :: presigns)
            | some _, none =>
              ((500, .error "Failed to generate S3 URLs"),
                .fetchSecret secretName :: presigns)
            | some _t, some _o =>
              match submit_rendition_job deps.submit with
              | none =>
                ((502, .error "Bad Gateway: Adobe API job submission failed"),
                  .fetchSecret secretName :: presigns ++ [.submitJob])
              | some url =>
                ((202, .jobAccepted url cfg.outputs_bucket_name outKey),
                  .fetchSecret secretName :: presigns ++ [.submitJob])

/-- The aggregated results carried by the send_report event, after the
results.get extractions at lines 58-61. -/
structure ReportResults where
  spreadsheet_id : String
  successful_jobs : List Record
  failed_jobs : List Record
  invalid_rows_count : Nat
deriving DecidableEq

/-- The send_report event: either data.results is present or the event
is malformed (KeyError path). -/
inductive ReportEvent
  | withResults (r : ReportResults)
  | malformed
deriving DecidableEq

/-- The fate of the Slack webhook POST: delivered, an HTTP response with
the given status (raise_for_status fails it iff the status is >= 400),
or a requests-level failure with no response. -/
inductive WebhookPost
  | ok
  | httpStatus (code : Nat)
  | networkError
deriving DecidableEq

/-- The external outcomes send_report depends on. -/
structure ReportDeps where
  slackSecret : Option String
  post : WebhookPost
deriving DecidableEq

/-- send_report handler (lines 30-123): fail fast on missing config; 400
on a malformed event; when the webhook secret is absent (or falsy),
return 200 with a warning; POST the report, and on any RequestException
(network failure or a status >= 400) return 200 with the same warning;
200 with a success message otherwise. -/
def send_report_handler (app_config : Option AppConfig) (ev : ReportEvent)
    (deps : ReportDeps) : HandlerResult :=
  match app_config with
  | none => ((500, .error "Internal server configuration error"), [])
  | some cfg =>
    match ev with
    | .malformed => ((400, .error "Missing results in event data"), [])
    | .withResults _r =>
      let secretName := "event-forge/slack-webhook-url-" ++ cfg.environment
      match deps.slackSecret with
      | none => ((200, .warning "Report could not be sent."), [.fetchSecret secretName])
      | some url =>
        if url = "" then
          ((200, .warning "Report could not be sent."), [.fetchSecret secretName])
        else
          match deps.post with
          | .ok =>
            ((200, .message "Report sent successfully."),
              [.fetchSecret secretName, .postWebhook])
          | .networkError =>
            ((200, .warning "Report could not be sent."),
              [.fetchSecret secretName, .postWebhook])
          | .httpStatus code =>
            if 400 ≤ code then
              ((200, .warning "Report could not be sent."),
                [.fetchSecret secretName, .postWebhook])
            else
              ((200, .message "Report sent successfully."),
                [.fetchSecret secretName, .postWebhook])

/-- Modelled from the spec: the Job Poller state machine of spec section
4.3 is not implemented under src/ — polling is delegated to the external
Inngest orchestrator, and adobe.py check_job_status performs only a
single status fetch.  States follow the spec: Submitted and Running are
non-terminal; Succeeded, Failed and TimedOut are terminal and carry the
time at which they were entered. -/
inductive JobState
  | submitted
  | running
  | succeededAt (t : Nat)
  | failedAt (t : Nat)
  | timedOutAt (t : Nat)
deriving DecidableEq

/-- A state is terminal when no further polling may change it. -/
def JobState.isTerminal : JobState → Bool
  | .submitted => false
  | .running => false
  | _ => true

/-- Modelled from the spec: one poll cycle of the Job Poller (spec 4.3).
A poll is a pair (time, response), the response being none for a
transient poll failure and some s for a reported remote status string.
A terminal state absorbs everything; if the elapsed time since
submittedAt exceeds the deadline, the handle force-transitions to
TimedOut at the deadline instant regardless of the response, so a late
terminal response is ignored; otherwise succeeded and failed responses
are terminal, a failed poll leaves the state unchanged, and any other
status string counts as Running. -/
def pollStep (submittedAt deadline : Nat) (st : JobState)
    (p : Nat × Option String) : JobState :=
  if st.isTerminal then st
  else if submittedAt + deadline < p.1 then .timedOutAt (submittedAt + deadline)
  else
    match p.2 with
    | none => st
    | some s =>
      if s = "succeeded" then .succeededAt p.1
      else if s = "failed" then .failedAt p.1
      else .running

/-- Modelled from the spec: the Job Poller run over a poll sequence in
time order, starting from the Submitted state entered on handle
creation. -/
def runPoller (submittedAt deadline : Nat)
    (polls : List (Nat × Option String)) : JobState :=
  polls.foldl (pollStep submittedAt deadline) .submitted

/-
Helper lemmas shared by the claim theorems.
-/

/-- A terminal poller state absorbs every further poll. -/
theorem foldl_pollStep_of_terminal (a d : Nat) (st : JobState)
    (l : List (Nat × Option String)) (h : st.isTerminal = true) :
    l.foldl (pollStep a d) st = st := by
  induction l with
  | nil => rfl
  | cons p l ih =>
    have hstep : pollStep a d st p = st := by
      unfold pollStep
      simp [h]
    rw [List.foldl_cons, hstep, ih]

/-- Replacing the value at a present key makes that key map to the new
value. -/
theorem getKey_setKey_of_mem (d : Record) (k : String) (v w : Value)
    (h : getKey d k = some w) : getKey (setKey d k v) k = some v := by
  induction d with
  | nil => simp [getKey] at h
  | cons kv rest ih =>
    by_cases hk : kv.1 = k
    · simp [setKey, getKey, hk]
    · simp only [getKey, if_neg hk] at h
      simp only [setKey, List.map_cons, if_neg hk, getKey, if_neg hk]
      exact ih h

/-- setKey never changes which keys are present. -/
theorem getKey_setKey_isSome (d : Record) (sk k : String) (v : Value) :
    (getKey (setKey d sk v) k).isSome = (getKey d k).isSome := by
  induction d with
  | nil => rfl
  | cons kv rest ih =>
    by_cases h1 : kv.1 = sk
    · by_cases h2 : sk = k
      · simp [setKey, getKey, h1, h2]
      · have h3 : ¬ kv.1 = k := by rw [h1]; exact h2
        simp only [setKey, List.map_cons, if_pos h1, getKey, if_neg h2,
          if_neg h3]
        exact ih
    · simp only [setKey, List.map_cons, if_neg h1, getKey]
      by_cases h2 : kv.1 = k
      · simp [h2]
      · simp only [if_neg h2]
        exact ih

/-- The is_active coercion never changes which keys are present. -/
theorem hasKey_coerceIsActive (r : Record) (k : String) :
    hasKey (coerceIsActive r) k = hasKey r k := by
  unfold coerceIsActive
  cases hia : getKey r "is_active" with
  | none => rfl
  | some v => exact getKey_setKey_isSome r "is_active" k _

/-- A record passing validation has every required key. -/
theorem hasKey_of_validate (r : Record) (s : JSchema) (k : String)
    (hk : k ∈ s.required) (hv : validate_row_data r s = true) :
    hasKey r k = true := by
  unfold validate_row_data at hv
  exact (List.all_eq_true.mp hv) k hk

/-- A key absent from the association list looks up to none. -/
theorem getKey_eq_none_of_not_mem (d : Record) (k : String)
    (h : k ∉ d.map Prod.fst) : getKey d k = none := by
  induction d with
  | nil => rfl
  | cons kv rest ih =>
    simp only [List.map_cons, List.mem_cons, not_or] at h
    have hne : ¬ kv.1 = k := fun he => h.1 he.symm
    simp only [getKey, if_neg hne]
    exact ih h.2

/-- The keys of a zip form the prefix of the first list cut at the
length of the second. -/
theorem zip_map_fst_eq_take (h row : List String) :
    ((h.zip row).map Prod.fst) = h.take row.length := by
  induction h generalizing row with
  | nil => simp
  | cons a h ih =>
    cases row with
    | nil => simp
    | cons b row => simp [ih]

/-- Folding dict insertion over pairs whose keys are fresh and pairwise
distinct just appends them. -/
theorem foldl_dictInsert_of_fresh (ps : List (String × Value)) :
    ∀ acc : Record, (ps.map Prod.fst).Nodup →
    (∀ k ∈ ps.map Prod.fst, acc.any (fun kv => kv.1 = k) = false) →
    ps.foldl (fun d kv => dictInsert d kv.1 kv.2) acc = acc ++ ps := by
  induction ps with
  | nil => intro acc _ _; simp
  | cons p ps ih =>
    intro acc hnd hfresh
    have hp : acc.any (fun kv => kv.1 = p.1) = false :=
      hfresh p.1 (by simp)
    have hstep : dictInsert acc p.1 p.2 = acc ++ [p] := by
      unfold dictInsert
      rw [hp]
      simp
    simp only [List.map_cons, List.nodup_cons] at hnd
    have hfresh2 : ∀ k ∈ ps.map Prod.fst,
        (acc ++ [p]).any (fun kv => kv.1 = k) = false := by
      intro k hk
      have hacc : acc.any (fun kv => kv.1 = k) = false :=
        hfresh k (by simp [hk])
      have hppk : ¬ p.1 = k := fun he => hnd.1 (he ▸ hk)
      simp [List.any_append, hacc, hppk]
    rw [List.foldl_cons, hstep, ih (acc ++ [p]) hnd.2 hfresh2]
    simp

/-- dict(pairs) over pairwise-distinct keys is the pair list itself. -/
theorem dictOfPairs_of_nodup (ps : List (String × Value))
    (h : (ps.map Prod.fst).Nodup) : dictOfPairs ps = ps := by
  unfold dictOfPairs
  have := foldl_dictInsert_of_fresh ps [] h (fun k _ => rfl)
  simpa using this

/-- load_config on a truthy cached value serves the cache and leaves it
alone, regardless of the world. -/
theorem load_config_cached (w : ConfigWorld) (v : ConfigVal)
    (ht : v.truthy = true) : load_config w (some v) = (.ok v, some v) := by
  simp [load_config, ht]

/-- load_config on a falsy cached value ignores the cache and runs the
uncached path. -/
theorem load_config_stale (w : ConfigWorld) (v : ConfigVal)
    (ht : v.truthy = false) :
    load_config w (some v) = load_config_uncached w (some v) := by
  simp [load_config, ht]

/-- If load_config returns a value, that value is what the cache now
holds. -/
theorem load_config_ok_cache (w : ConfigWorld) (c : Option ConfigVal)
    (d : ConfigVal) (h : (load_config w c).1 = .ok d) :
    (load_config w c).2 = some d := by
  have huc : ∀ c' : Option ConfigVal,
      (load_config_uncached w c').1 = .ok d →
      (load_config_uncached w c').2 = some d := by
    intro c'
    unfold load_config_uncached
    cases he : w.app_env with
    | none => simp
    | some e =>
      cases hf : w.file e with
      | none => simp [hf]
      | some r =>
        cases r with
        | error u => simp [hf]
        | ok data =>
          simp only [hf]
          intro hr
          simp at hr
          simp [hr]
  cases c with
  | none => exact huc none h
  | some v =>
    by_cases ht : v.truthy = true
    · rw [load_config_cached w v ht] at h ⊢
      have hd : v = d := by simpa using h
      simp [hd]
    · rw [load_config_stale w v (Bool.not_eq_true _ ▸ ht)] at h ⊢
      exact huc (some v) h

/-
The claim theorems.
-/

/-- C1: once the elapsed time since submission exceeds the deadline with
the handle still non-terminal, the poller yields TimedOut at the deadline
and every later remote response, including a late succeeded, is ignored;
with a 600-second deadline, polls running, running, succeeded at
t=5,10,15 end in Succeeded at 15, while the same sequence with the third
poll at t=650 ends in TimedOut at 600. -/
theorem poller_deadline_forces_timeout (submittedAt deadline t : Nat)
    (s : Option String) (pre rest : List (Nat × Option String))
    (hpre : (runPoller submittedAt deadline pre).isTerminal = false)
    (ht : submittedAt + deadline < t) :
    runPoller submittedAt deadline (pre ++ (t, s) :: rest)
      = JobState.timedOutAt (submittedAt + deadline)
    ∧ runPoller 0 600
        [(5, some "running"), (10, some "running"), (15, some "succeeded")]
      = JobState.succeededAt 15
    ∧ runPoller 0 600
        [(5, some "running"), (10, some "running"), (650, some "succeeded")]
      = JobState.timedOutAt 600 := by
  refine ⟨?_, by decide, by decide⟩
  have hstep : pollStep submittedAt deadline
      (runPoller submittedAt deadline pre) (t, s)
      = JobState.timedOutAt (submittedAt + deadline) := by
    unfold pollStep
    simp [hpre, ht]
  unfold runPoller at hstep ⊢
  rw [List.foldl_append, List.foldl_cons, hstep]
  exact foldl_pollStep_of_terminal _ _ _ _ rfl

/-- Witness for C1 at the spec's concrete scenario: deadline 600, two
running polls then a poll at t=650. -/
theorem poller_deadline_forces_timeout_witness :
    runPoller 0 600
        ([(5, some "running"), (10, some "running")]
          ++ (650, some "succeeded") :: [])
      = JobState.timedOutAt 600
    ∧ runPoller 0 600
        [(5, some "running"), (10, some "running"), (15, some "succeeded")]
      = JobState.succeededAt 15
    ∧ runPoller 0 600
        [(5, some "running"), (10, some "running"), (650, some "succeeded")]
      = JobState.timedOutAt 600 :=
  poller_deadline_forces_timeout 0 600 650 (some "succeeded")
    [(5, some "running"), (10, some "running")] [] (by decide) (by decide)

/-- C3 counterexample: when load_config itself raises ValueError (APP_ENV
unset), the except clause catches it, the import completes with
app_config = None, and no AttributeError is raised — so importing the
module does not ALWAYS raise an uncaught AttributeError. -/
theorem read_sheet_import_completes_on_config_error :
    read_sheet_module_init (.error .valueError) = .ok none := rfl

/-- C3 amended: project_root is not a module attribute of config.py, so
whenever load_config succeeds at import time the read of
config.project_root raises an AttributeError that the except clause
(catching only ValueError and FileNotFoundError) does not catch and
the import fails; when load_config instead raises ValueError or
FileNotFoundError, the import completes in the degraded app_config = None
state.  Hence the handler never executes with a loaded configuration. -/
theorem read_sheet_import_attribute_error :
    (∀ cfg : ConfigVal,
      read_sheet_module_init (.ok cfg) = .error .attributeError)
    ∧ configGetAttr "project_root" = .error .attributeError
    ∧ read_sheet_module_init (.error .valueError) = .ok none
    ∧ read_sheet_module_init (.error .fileNotFoundError) = .ok none :=
  ⟨fun _ => rfl, rfl, rfl, rfl⟩

/-- C4: submit_rendition_job collapses every failure cause — network
error with no response, 4xx validation rejection, 5xx server error — to
the same None, and generate_poster maps that None to one undifferentiated
502 response, so the caller cannot tell retryable from non-retryable
failures. -/
theorem submission_failure_undifferentiated :
    submit_rendition_job ⟨true, .networkError⟩ = none
    ∧ submit_rendition_job ⟨true, .response 400 none⟩ = none
    ∧ submit_rendition_job ⟨true, .response 503 none⟩ = none
    ∧ generate_poster_handler
        (some ⟨"dev", "gname", "adobe-key", "assets", "outputs"⟩)
        (.withRow [("sku", Value.str "SKU1")])
        ⟨some (.creds "id" "secret-value"), some "tUrl", some "oUrl",
          ⟨true, .networkError⟩⟩
      = generate_poster_handler
        (some ⟨"dev", "gname", "adobe-key", "assets", "outputs"⟩)
        (.withRow [("sku", Value.str "SKU1")])
        ⟨some (.creds "id" "secret-value"), some "tUrl", some "oUrl",
          ⟨true, .response 400 none⟩⟩
    ∧ (generate_poster_handler
        (some ⟨"dev", "gname", "adobe-key", "assets", "outputs"⟩)
        (.withRow [("sku", Value.str "SKU1")])
        ⟨some (.creds "id" "secret-value"), some "tUrl", some "oUrl",
          ⟨true, .response 503 none⟩⟩).1
      = (502, .error "Bad Gateway: Adobe API job submission failed") := by
  refine ⟨rfl, by decide, by decide, by decide, by decide⟩

/-- C5: with configuration loaded and a well-formed event, a notification
delivery failure — the webhook secret missing, the POST failing on the
network, or the webhook answering with an error status — yields
statusCode 200 with a warning body, never an error status. -/
theorem notification_failure_downgraded (cfg : AppConfig)
    (r : ReportResults) (deps : ReportDeps)
    (h : deps.slackSecret = none ∨ deps.post = .networkError
      ∨ (∃ c, deps.post = .httpStatus c ∧ 400 ≤ c)) :
    (send_report_handler (some cfg) (.withResults r) deps).1
      = (200, .warning "Report could not be sent.") := by
  obtain ⟨sec, post⟩ := deps
  rcases h with h | h | ⟨c, hc, hge⟩
  · simp only at h
    subst h
    rfl
  · simp only at h
    subst h
    cases sec with
    | none => rfl
    | some url =>
      by_cases hu : url = ""
      · simp [send_report_handler, hu]
      · simp [send_report_handler, hu]
  · simp only at hc
    subst hc
    cases sec with
    | none => rfl
    | some url =>
      by_cases hu : url = ""
      · simp [send_report_handler, hu]
      · simp [send_report_handler, hu, hge]

/-- Witness for C5: missing webhook secret on a concrete report. -/
theorem notification_failure_downgraded_witness :
    (send_report_handler
        (some ⟨"dev", "gname", "adobe-key", "assets", "outputs"⟩)
        (.withResults ⟨"sheet-1", [], [], 0⟩) ⟨none, .ok⟩).1
      = (200, .warning "Report could not be sent.") :=
  notification_failure_downgraded _ _ _ (Or.inl rfl)

/-- C6: with app_config = None after a failed configuration load, each of
the three handlers returns statusCode 500 at once, performing no external
effect — no sheet read, no secret fetch, no presigned URL, no job
submission. -/
theorem missing_config_fails_fast :
    ∀ (schema : Option JSchema) (ev₁ : ReadEvent) (d₁ : ReadSheetDeps)
      (ev₂ : PosterEvent) (d₂ : PosterDeps)
      (ev₃ : ReportEvent) (d₃ : ReportDeps),
      read_sheet_handler none schema ev₁ d₁
        = ((500, .error "Internal server configuration error"), [])
      ∧ generate_poster_handler none ev₂ d₂
        = ((500, .error "Internal server configuration error"), [])
      ∧ send_report_handler none ev₃ d₃
        = ((500, .error "Internal server configuration error"), []) :=
  fun _ _ _ _ _ _ _ => ⟨rfl, rfl, rfl⟩

/-- C7: for every record with an is_active field, the Row Gate replaces
that field, before validation, by the boolean that is True exactly when
the field's string form upper-cased equals TRUE, and False otherwise; a
record without the field is passed on unchanged. -/
theorem is_active_coercion (row : Record) :
    (∀ v, getKey row "is_active" = some v →
      getKey (coerceIsActive row) "is_active"
        = some (.bool (pyUpper (pyStr v) == "TRUE")))
    ∧ (getKey row "is_active" = none → coerceIsActive row = row) := by
  constructor
  · intro v hv
    unfold coerceIsActive
    rw [hv]
    exact getKey_setKey_of_mem row "is_active" _ v hv
  · intro hv
    unfold coerceIsActive
    rw [hv]

/-- Witness for C7: the lowercase string "true" is coerced to the
boolean True. -/
theorem is_active_coercion_witness :
    getKey (coerceIsActive [("is_active", Value.str "true")]) "is_active"
      = some (Value.bool true) := by
  have h := (is_active_coercion [("is_active", Value.str "true")]).1
    (Value.str "true") rfl
  exact h.trans (by decide)

/-- C8: read_google_sheet maps an empty cell matrix to the empty record
sequence; otherwise the first row (stripped) is the header and the
result is, in sheet order, exactly one record for each later row that
has at least one non-empty field value, and no more records than data
rows. -/
theorem sheet_reader_shape :
    read_google_sheet [] = []
    ∧ (∀ (header : List String) (data : List (List String)),
        read_google_sheet (header :: data)
          = (data.filter (fun row =>
                hasTruthyValue (rowRecord (header.map String.trim) row))).map
              (fun row => rowRecord (header.map String.trim) row))
    ∧ (∀ (header : List String) (data : List (List String)),
        (read_google_sheet (header :: data)).length ≤ data.length) := by
  have comm : ∀ (f : List String → Record) (l : List (List String)),
      (l.map f).filter hasTruthyValue
        = (l.filter (fun x => hasTruthyValue (f x))).map f := by
    intro f l
    induction l with
    | nil => rfl
    | cons a l ih =>
      simp only [List.map_cons, List.filter_cons]
      by_cases h : hasTruthyValue (f a) = true
      · simp [h, ih]
      · simp [h, ih]
  have key : ∀ (header : List String) (data : List (List String)),
      read_google_sheet (header :: data)
        = (data.filter (fun row =>
              hasTruthyValue (rowRecord (header.map String.trim) row))).map
            (fun row => rowRecord (header.map String.trim) row) := by
    intro header data
    exact comm (fun row => rowRecord (header.map String.trim) row) data
  refine ⟨rfl, key, ?_⟩
  intro header data
  rw [key header data]
  calc ((data.filter _).map _).length
      = (data.filter _).length := List.length_map _ _
    _ ≤ data.length := List.length_filter_le _ _

/-- C9: for a data row shorter than the header, the record holds exactly
the leading header keys that have a matching cell — it is the
key-by-key zip of header and row, its key list is the header prefix of
the row's length, and every header column beyond the row's length is
entirely absent (looks up to nothing, rather than to a null value);
symmetrically, cells beyond the header's length are dropped. -/
theorem short_row_truncates (header row : List String)
    (hnd : header.Nodup) :
    rowRecord header row
      = (header.zip row).map (fun p => (p.1, Value.str p.2))
    ∧ (rowRecord header row).map Prod.fst = header.take row.length
    ∧ (∀ k ∈ header.drop row.length,
        getKey (rowRecord header row) k = none) := by
  have hkeys : ((header.zip row).map
      (fun p => (p.1, Value.str p.2))).map Prod.fst
      = header.take row.length := by
    rw [List.map_map]
    have : (Prod.fst ∘ fun p : String × String => (p.1, Value.str p.2))
        = Prod.fst := rfl
    rw [this]
    exact zip_map_fst_eq_take header row
  have hnd2 : (((header.zip row).map
      (fun p => (p.1, Value.str p.2))).map Prod.fst).Nodup := by
    rw [hkeys]
    exact (List.take_sublist _ _).nodup hnd
  have h1 : rowRecord header row
      = (header.zip row).map (fun p => (p.1, Value.str p.2)) :=
    dictOfPairs_of_nodup _ hnd2
  refine ⟨h1, by rw [h1]; exact hkeys, ?_⟩
  intro k hk
  apply getKey_eq_none_of_not_mem
  rw [h1, hkeys]
  intro hmem
  exact List.disjoint_take_drop hnd le_rfl hmem hk

/-- Witness for C9: header a,b,c with the single-cell row 1 yields the
record with key a only. -/
theorem short_row_truncates_witness :
    (rowRecord ["a", "b", "c"] ["1"]).map Prod.fst
      = ["a", "b", "c"].take 1 :=
  (short_row_truncates ["a", "b", "c"] ["1"] (by decide)).2.1

/-- C10: once load_config has produced a truthy (non-empty) configuration
value, every later call returns that same value from the cache whatever
APP_ENV and the filesystem now say; but when the produced value is falsy
(an empty mapping or None), the cache check fails and the next call
re-reads whatever the current environment's file holds. -/
theorem config_cache_truthiness (w : ConfigWorld) (c : Option ConfigVal)
    (d : ConfigVal) (hres : (load_config w c).1 = .ok d) :
    (d.truthy = true →
      ∀ w₂ : ConfigWorld,
        load_config w₂ (load_config w c).2 = (.ok d, (load_config w c).2))
    ∧ (d.truthy = false →
      ∀ (w₂ : ConfigWorld) (e₂ : String) (d₂ : ConfigVal),
        w₂.app_env = some e₂ → w₂.file e₂ = some (.ok d₂) →
        load_config w₂ (load_config w c).2 = (.ok d₂, some d₂)) := by
  have hcache : (load_config w c).2 = some d :=
    load_config_ok_cache w c d hres
  constructor
  · intro ht w₂
    rw [hcache]
    exact load_config_cached w₂ d ht
  · intro ht w₂ e₂ d₂ he₂ hf₂
    rw [hcache, load_config_stale w₂ d ht]
    unfold load_config_uncached
    simp [he₂, hf₂]

/-- Witness for C10: a first load from a world whose file parses to a
one-entry mapping is then served from the cache even in a world with no
APP_ENV and no files at all; a first load from a world whose file parses
to None is not cached, and a second call picks up the changed file. -/
theorem config_cache_truthiness_witness :
    load_config ⟨none, fun _ => none⟩
        (load_config
          ⟨some "dev", fun _ => some (.ok (.dict [("k", "v")]))⟩ none).2
      = (.ok (.dict [("k", "v")]),
        (load_config
          ⟨some "dev", fun _ => some (.ok (.dict [("k", "v")]))⟩ none).2)
    ∧ load_config ⟨some "dev", fun _ => some (.ok (.dict [("x", "y")]))⟩
        (load_config
          ⟨some "dev", fun _ => some (.ok ConfigVal.null)⟩ none).2
      = (.ok (.dict [("x", "y")]), some (.dict [("x", "y")])) := by
  constructor
  · exact (config_cache_truthiness
      ⟨some "dev", fun _ => some (.ok (.dict [("k", "v")]))⟩ none
      (.dict [("k", "v")]) rfl).1 rfl ⟨none, fun _ => none⟩
  · exact (config_cache_truthiness
      ⟨some "dev", fun _ => some (.ok ConfigVal.null)⟩ none
      ConfigVal.null rfl).2 rfl
      ⟨some "dev", fun _ => some (.ok (.dict [("x", "y")]))⟩
      "dev" (.dict [("x", "y")]) rfl rfl

/-- C2 counterexample: the Row Gate has no SKU check of its own — with a
schema that does not list sku as required (here the empty schema, which
accepts every instance), a record with no sku field is emitted as a
valid row, so a record missing the unique-key field is NOT rejected
regardless of which schema is supplied. -/
theorem missing_sku_accepted_by_empty_schema :
    (rowGate ⟨[]⟩ [[("name", Value.str "x")]]).1
      = [[("name", Value.str "x")]]
    ∧ hasKey [("name", Value.str "x")] "sku" = false := by decide

/-- C2 amended: for every schema that lists sku among its required
fields — as the product row schema used by the handler does — the Row
Gate never emits a record lacking the sku field as a valid row, and every
such input record is counted among the invalid rows. -/
theorem missing_sku_rejected_when_required (schema : JSchema)
    (rows : List Record) (hreq : "sku" ∈ schema.required) :
    (∀ r ∈ (rowGate schema rows).1, hasKey r "sku" = true)
    ∧ rows.countP (fun r => !(hasKey r "sku"))
        ≤ (rowGate schema rows).2.length := by
  constructor
  · intro r hr
    have hmem := List.mem_filter.mp hr
    exact hasKey_of_validate r schema "sku" hreq hmem.2
  · have hlen : (rowGate schema rows).2.length
        = (rows.map coerceIsActive).countP
            (fun r => !(validate_row_data r schema)) :=
      (List.countP_eq_length_filter _ _).symm
    rw [hlen, List.countP_map]
    have hstep : rows.countP (fun r => !(hasKey r "sku"))
        = rows.countP
            (fun r => !(hasKey (coerceIsActive r) "sku")) := by
      apply List.countP_congr
      intro r _
      simp [hasKey_coerceIsActive]
    rw [hstep]
    apply List.countP_mono_left
    intro r _ hno
    simp only [Bool.not_eq_true', Function.comp] at hno ⊢
    by_contra hv
    rw [Bool.not_eq_false] at hv
    rw [hasKey_of_validate (coerceIsActive r) schema "sku" hreq hv] at hno
    simp at hno

/-- Witness for C2 amended: one sku-less record against a schema
requiring sku is counted among the invalid rows. -/
theorem missing_sku_rejected_when_required_witness :
    ([[("name", Value.str "x")]] : List Record).countP
        (fun r => !(hasKey r "sku"))
      ≤ (rowGate ⟨["sku"]⟩ [[("name", Value.str "x")]]).2.length :=
  (missing_sku_rejected_when_required ⟨["sku"]⟩
    [[("name", Value.str "x")]] (by decide)).2

end EventForge
